import Mathlib

/-!
Shallow embedding of the DuelBase escrow contracts
(`GameManager.sol`, `TicTacToeGame.sol`, `TokenStore.sol`).

Modelling conventions:
- Addresses are natural numbers; the null address is `0`.
- `uint256` values are `Nat`; Solidity ^0.8 checked arithmetic reverts on
  overflow, which is modelled by an explicit `Overflow` error whenever an
  addition or multiplication in the source could exceed `2 ^ 256 - 1`.
- A reverting call is an `Except.error`: it moves no funds and leaves the
  state unchanged (the caller keeps the pre-call state).
- Token transfers are recorded as a list of moves (`Mv.pull` for
  `safeTransferFrom(caller, this, amount)`, `Mv.pay` for
  `safeTransfer(to, amount)`); the ERC-20 ledger itself is external.
- The EIP-712 digest of a `GameResult(uint256 gameId,address winner)`
  struct under the contract's fixed domain separator is modelled as the
  pair `(gameId, winner)` itself (keccak256 treated as injective).
- ECDSA recovery is an uninterpreted function `recover : digest → sig → addr`
  supplied by the caller of `completeGame`.
-/

namespace DuelBase

/-- First value that does not fit in a uint256. -/
def UMAX : Nat := 2 ^ 256

/-- Game lifecycle status, shared by both contracts (identical enums in the
source). -/
inductive GameStatus where
  | Created
  | Active
  | Completed
  | Cancelled
deriving DecidableEq

/-- True on the two terminal statuses. -/
def GameStatus.isTerminal : GameStatus → Bool
  | .Completed => true
  | .Cancelled => true
  | _ => false

/-- The two built-in game types of `GameManager`. -/
inductive GameType where
  | TicTacToe
  | ConnectFour
deriving DecidableEq

/-- Typed revert reasons, pooled across the three contracts, plus `Overflow`
for a checked-arithmetic panic. -/
inductive Err where
  | InvalidAddress
  | InvalidAmount
  | InvalidGameId
  | InvalidGameStatus
  | InvalidSignature
  | InvalidWinner
  | NotPlayer
  | NotPlayer2
  | TimeoutNotReached
  | EdgePercentTooHigh
  | SignatureAlreadyUsed
  | NotOwner
  | InvalidPosition
  | CellOccupied
  | NotYourTurn
  | NoTimeoutOccurred
  | StoreClosed
  | InsufficientInventory
  | InvalidPrice
  | Overflow
deriving DecidableEq

/-- One ERC-20 movement of the wagering token:
`pull who amount` is `safeTransferFrom(who, address(this), amount)`,
`pay who amount` is `safeTransfer(who, amount)`. -/
inductive Mv where
  | pull (who amount : Nat)
  | pay (who amount : Nat)
deriving DecidableEq

/-- Whether a call succeeded. -/
def isOk {E A : Type} : Except E A → Bool
  | .ok _ => true
  | .error _ => false

/-- The token moves performed by a call (a revert performs none). -/
def movesOf {E S M : Type} : Except E (S × List M) → List M
  | .ok (_, m) => m
  | .error _ => []

/-- The post-state of a call, with a default for the revert case. -/
def stateOf {E S M : Type} (dflt : S) : Except E (S × List M) → S
  | .ok (s, _) => s
  | .error _ => dflt

namespace GM

/-- The `Game` struct of `GameManager.sol`. -/
structure Game where
  id : Nat
  player1 : Nat
  player2 : Nat
  wagerAmount : Nat
  player1Wager : Nat
  gameType : GameType
  status : GameStatus
  createdAt : Nat
  winner : Nat
deriving DecidableEq

/-- The default value of a Solidity `Game` storage slot (all fields zero). -/
def emptyGame : Game :=
  { id := 0, player1 := 0, player2 := 0, wagerAmount := 0, player1Wager := 0,
    gameType := .TicTacToe, status := .Created, createdAt := 0, winner := 0 }

/-- EIP-712 digest of `GameResult(uint256 gameId,address winner)` under the
contract's domain separator, modelled as the pair it binds. -/
structure GDigest where
  gameId : Nat
  winner : Nat
deriving DecidableEq

/-- Constant `MAX_EDGE_PERCENT` (50%). -/
def MAX_EDGE_PERCENT : Nat := 5000

/-- Constant `BASIS_POINTS`, the basis-points denominator. -/
def BASIS_POINTS : Nat := 10000

/-- The mutable storage of `GameManager`. -/
structure GMState where
  owner : Nat
  backendSigner : Nat
  cancelTimeout : Nat
  nextGameId : Nat
  games : Nat → Game
  edgePercent : GameType → Nat
  usedSignatures : GDigest → Bool

/-- Pointwise update of the `games` mapping. -/
def setGame (f : Nat → Game) (i : Nat) (g : Game) : Nat → Game :=
  fun j => if j = i then g else f j

/-- Post-constructor state of `GameManager`: default 5% / 3% edges,
24-hour cancel timeout, no games, no used signatures. -/
def GMState.init (owner backendSigner : Nat) : GMState :=
  { owner := owner
    backendSigner := backendSigner
    cancelTimeout := 86400
    nextGameId := 0
    games := fun _ => emptyGame
    edgePercent := fun gt => match gt with
      | .TicTacToe => 500
      | .ConnectFour => 300
    usedSignatures := fun _ => false }

/-- Model of `GameManager.createGame(opponent, wagerAmount, gameType)` called by
`caller` at time `now`. -/
def createGame (s : GMState) (caller now opponent wagerAmount : Nat)
    (gameType : GameType) : Except Err (GMState × List Mv) :=
  if opponent = 0 ∨ opponent = caller then .error .InvalidAddress
  else if wagerAmount = 0 then .error .InvalidAmount
  else if s.nextGameId + 1 < UMAX then
    if wagerAmount * s.edgePercent gameType < UMAX then
      if wagerAmount + wagerAmount * s.edgePercent gameType / BASIS_POINTS < UMAX then
        .ok ({ s with
                nextGameId := s.nextGameId + 1
                games := setGame s.games s.nextGameId
                  { id := s.nextGameId
                    player1 := caller
                    player2 := opponent
                    wagerAmount := wagerAmount
                    player1Wager :=
                      wagerAmount + wagerAmount * s.edgePercent gameType / BASIS_POINTS
                    gameType := gameType
                    status := .Created
                    createdAt := now
                    winner := 0 } },
             [.pull caller
                (wagerAmount + wagerAmount * s.edgePercent gameType / BASIS_POINTS)])
      else .error .Overflow
    else .error .Overflow
  else .error .Overflow

/-- Model of `GameManager.joinGame(gameId)` called by `caller`. -/
def joinGame (s : GMState) (caller gameId : Nat) :
    Except Err (GMState × List Mv) :=
  let game := s.games gameId
  if game.player1 = 0 then .error .InvalidGameId
  else if game.status ≠ .Created then .error .InvalidGameStatus
  else if caller ≠ game.player2 then .error .NotPlayer2
  else
    .ok ({ s with games := setGame s.games gameId { game with status := .Active } },
         [.pull caller game.wagerAmount])

/-- Model of `GameManager.completeGame(gameId, winner, signature)`. `recover` is
ECDSA recovery on the digest; the source marks the digest used before the
signer check, but a revert rolls that write back, so only the successful
path consumes the digest. -/
def completeGame (s : GMState) (gameId winner : Nat)
    (recover : GDigest → Nat → Nat) (signature : Nat) :
    Except Err (GMState × List Mv) :=
  let game := s.games gameId
  if game.player1 = 0 then .error .InvalidGameId
  else if game.status ≠ .Active then .error .InvalidGameStatus
  else if winner ≠ game.player1 ∧ winner ≠ game.player2 then .error .InvalidWinner
  else if s.usedSignatures ⟨gameId, winner⟩ then .error .SignatureAlreadyUsed
  else if recover ⟨gameId, winner⟩ signature ≠ s.backendSigner then
    .error .InvalidSignature
  else if game.player1Wager + game.wagerAmount < UMAX then
    .ok ({ s with
            usedSignatures := fun d =>
              if d = ⟨gameId, winner⟩ then true else s.usedSignatures d
            games := setGame s.games gameId
              { game with status := .Completed, winner := winner } },
         [.pay winner (game.player1Wager + game.wagerAmount)])
  else .error .Overflow

/-- Model of `GameManager.cancelGame(gameId)` called by `caller` at time `now`. -/
def cancelGame (s : GMState) (caller now gameId : Nat) :
    Except Err (GMState × List Mv) :=
  let game := s.games gameId
  if game.player1 = 0 then .error .InvalidGameId
  else if game.status ≠ .Created then .error .InvalidGameStatus
  else if caller ≠ game.player1 then .error .NotPlayer
  else if game.createdAt + s.cancelTimeout < UMAX then
    if now < game.createdAt + s.cancelTimeout then .error .TimeoutNotReached
    else
      .ok ({ s with games := setGame s.games gameId { game with status := .Cancelled } },
           [.pay game.player1 game.player1Wager])
  else .error .Overflow

/-- Model of `GameManager.setBackendSigner(newSigner)` (owner-only). -/
def setBackendSigner (s : GMState) (caller newSigner : Nat) :
    Except Err GMState :=
  if caller ≠ s.owner then .error .NotOwner
  else if newSigner = 0 then .error .InvalidAddress
  else .ok { s with backendSigner := newSigner }

/-- Model of `GameManager.setEdgePercent(gameType, newEdgePercent)` (owner-only). -/
def setEdgePercent (s : GMState) (caller : Nat) (gameType : GameType)
    (newEdgePercent : Nat) : Except Err GMState :=
  if caller ≠ s.owner then .error .NotOwner
  else if newEdgePercent > MAX_EDGE_PERCENT then .error .EdgePercentTooHigh
  else
    .ok { s with
           edgePercent := fun gt =>
             if gt = gameType then newEdgePercent else s.edgePercent gt }

/-- Model of `GameManager.setCancelTimeout(newTimeout)` (owner-only). -/
def setCancelTimeout (s : GMState) (caller newTimeout : Nat) :
    Except Err GMState :=
  if caller ≠ s.owner then .error .NotOwner
  else .ok { s with cancelTimeout := newTimeout }

/-- Model of `GameManager.calculatePlayer1Wager(wagerAmount, gameType)` (view). -/
def calculatePlayer1Wager (s : GMState) (wagerAmount : Nat)
    (gameType : GameType) : Nat :=
  wagerAmount + wagerAmount * s.edgePercent gameType / BASIS_POINTS

/-- One external transaction against `GameManager`, with its caller,
timestamp and arguments. -/
inductive GMOp where
  | create (caller now opponent wagerAmount : Nat) (gameType : GameType)
  | join (caller gameId : Nat)
  | complete (gameId winner : Nat) (recover : GDigest → Nat → Nat) (signature : Nat)
  | cancel (caller now gameId : Nat)
  | setSigner (caller newSigner : Nat)
  | setEdge (caller : Nat) (gameType : GameType) (bp : Nat)
  | setTimeout (caller newTimeout : Nat)

/-- The game-record operations named by the lifecycle claim
(join / complete / cancel). -/
def GMOp.isGameOp : GMOp → Bool
  | .join .. => true
  | .complete .. => true
  | .cancel .. => true
  | _ => false

/-- Chain semantics of one transaction: a revert leaves storage unchanged. -/
def gmStep (s : GMState) (op : GMOp) : GMState :=
  match op with
  | .create c n o w gt =>
      match createGame s c n o w gt with
      | .ok (s2, _) => s2
      | .error _ => s
  | .join c g =>
      match joinGame s c g with
      | .ok (s2, _) => s2
      | .error _ => s
  | .complete g w rc sig =>
      match completeGame s g w rc sig with
      | .ok (s2, _) => s2
      | .error _ => s
  | .cancel c n g =>
      match cancelGame s c n g with
      | .ok (s2, _) => s2
      | .error _ => s
  | .setSigner c ns =>
      match setBackendSigner s c ns with
      | .ok s2 => s2
      | .error _ => s
  | .setEdge c gt bp =>
      match setEdgePercent s c gt bp with
      | .ok s2 => s2
      | .error _ => s
  | .setTimeout c t =>
      match setCancelTimeout s c t with
      | .ok s2 => s2
      | .error _ => s

/-- Run a sequence of transactions. -/
def gmRun (s : GMState) (ops : List GMOp) : GMState :=
  ops.foldl gmStep s

end GM

namespace TTT

/-- The `Game` struct of `TicTacToeGame.sol`. The board is a list of nine
cells: 0 = empty, 1 = X (player1), 2 = O (player2). -/
structure TGame where
  id : Nat
  player1 : Nat
  player2 : Nat
  wagerAmount : Nat
  status : GameStatus
  createdAt : Nat
  lastMoveAt : Nat
  currentTurn : Nat
  winner : Nat
  board : List Nat
  isDraw : Bool
deriving DecidableEq

/-- The default value of a `TicTacToeGame.Game` storage slot. -/
def emptyTGame : TGame :=
  { id := 0, player1 := 0, player2 := 0, wagerAmount := 0, status := .Created,
    createdAt := 0, lastMoveAt := 0, currentTurn := 0, winner := 0,
    board := List.replicate 9 0, isDraw := false }

/-- Constant `MOVE_TIMEOUT` (2 minutes). -/
def MOVE_TIMEOUT : Nat := 120

/-- The mutable storage of `TicTacToeGame`. -/
structure TState where
  owner : Nat
  joinTimeout : Nat
  nextGameId : Nat
  games : Nat → TGame

/-- Pointwise update of the `games` mapping. -/
def setTGame (f : Nat → TGame) (i : Nat) (g : TGame) : Nat → TGame :=
  fun j => if j = i then g else f j

/-- Model of `TicTacToeGame._checkWin(board, player)`: the eight three-in-a-row
line checks of the source, in source order. -/
def checkWin (board : List Nat) (player : Nat) : Bool :=
  (board.getD 0 0 == player && board.getD 1 0 == player && board.getD 2 0 == player) ||
  (board.getD 3 0 == player && board.getD 4 0 == player && board.getD 5 0 == player) ||
  (board.getD 6 0 == player && board.getD 7 0 == player && board.getD 8 0 == player) ||
  (board.getD 0 0 == player && board.getD 3 0 == player && board.getD 6 0 == player) ||
  (board.getD 1 0 == player && board.getD 4 0 == player && board.getD 7 0 == player) ||
  (board.getD 2 0 == player && board.getD 5 0 == player && board.getD 8 0 == player) ||
  (board.getD 0 0 == player && board.getD 4 0 == player && board.getD 8 0 == player) ||
  (board.getD 2 0 == player && board.getD 4 0 == player && board.getD 6 0 == player)

/-- Model of `TicTacToeGame._isBoardFull(board)`: all nine cells non-empty. -/
def isBoardFull (board : List Nat) : Bool :=
  (List.range 9).all fun i => board.getD i 0 != 0

/-- Model of `TicTacToeGame.makeMove(gameId, position)` called by `caller` at time
`now`. On a winning move the caller gets the whole pot; on a board-filling
move without a win each player is refunded their own wager; otherwise the
turn passes to the other player. -/
def makeMove (t : TState) (caller now gameId pos : Nat) :
    Except Err (TState × List Mv) :=
  let game := t.games gameId
  if game.player1 = 0 then .error .InvalidGameId
  else if game.status ≠ .Active then .error .InvalidGameStatus
  else if caller ≠ game.currentTurn then .error .NotYourTurn
  else if pos > 8 then .error .InvalidPosition
  else if game.board.getD pos 0 ≠ 0 then .error .CellOccupied
  else
    let cellState := if caller = game.player1 then 1 else 2
    let newBoard := game.board.set pos cellState
    if checkWin newBoard cellState then
      if game.wagerAmount * 2 < UMAX then
        .ok ({ t with
                games := setTGame t.games gameId
                  { game with
                    board := newBoard
                    lastMoveAt := now
                    status := .Completed
                    winner := caller } },
             [.pay caller (game.wagerAmount * 2)])
      else .error .Overflow
    else if isBoardFull newBoard then
      .ok ({ t with
              games := setTGame t.games gameId
                { game with
                  board := newBoard
                  lastMoveAt := now
                  status := .Completed
                  isDraw := true } },
           [.pay game.player1 game.wagerAmount, .pay game.player2 game.wagerAmount])
    else
      .ok ({ t with
              games := setTGame t.games gameId
                { game with
                  board := newBoard
                  lastMoveAt := now
                  currentTurn :=
                    if caller = game.player1 then game.player2 else game.player1 } },
           [])

/-- Model of `TicTacToeGame.claimTimeoutWin(gameId)` called by `caller` at time
`now`. -/
def claimTimeoutWin (t : TState) (caller now gameId : Nat) :
    Except Err (TState × List Mv) :=
  let game := t.games gameId
  if game.player1 = 0 then .error .InvalidGameId
  else if game.status ≠ .Active then .error .InvalidGameStatus
  else if caller ≠ game.player1 ∧ caller ≠ game.player2 then .error .NotPlayer
  else if caller = game.currentTurn then .error .NotYourTurn
  else if game.lastMoveAt + MOVE_TIMEOUT < UMAX then
    if now < game.lastMoveAt + MOVE_TIMEOUT then .error .NoTimeoutOccurred
    else if game.wagerAmount * 2 < UMAX then
      .ok ({ t with
              games := setTGame t.games gameId
                { game with status := .Completed, winner := caller } },
           [.pay caller (game.wagerAmount * 2)])
    else .error .Overflow
  else .error .Overflow

/-- Updating a key and reading it back. -/
lemma setTGame_self (f : Nat → TGame) (i : Nat) (g : TGame) :
    setTGame f i g i = g := by
  simp [setTGame]

/-- Updating one key leaves the others unchanged. -/
lemma setTGame_ne (f : Nat → TGame) (i j : Nat) (g : TGame) (h : j ≠ i) :
    setTGame f i g j = f j := by
  simp [setTGame, h]

/-- Inversion of a successful `claimTimeoutWin`: the checks that were
passed and the exact state update and pot payout performed. -/
lemma claimTimeoutWin_ok (t : TState) (c n g : Nat) (p : TState × List Mv)
    (h : claimTimeoutWin t c n g = .ok p) :
    (t.games g).player1 ≠ 0 ∧ (t.games g).status = .Active ∧
    (c = (t.games g).player1 ∨ c = (t.games g).player2) ∧
    c ≠ (t.games g).currentTurn ∧
    (t.games g).lastMoveAt + MOVE_TIMEOUT ≤ n ∧
    p = ({ t with
            games := setTGame t.games g
              { t.games g with status := .Completed, winner := c } },
         [.pay c ((t.games g).wagerAmount * 2)]) := by
  simp only [claimTimeoutWin] at h
  split_ifs at h with h1 h2 h3 h4 h5 h6 h7
  injection h with h
  refine ⟨h1, not_not.mp h2, ?_, h4, Nat.le_of_not_lt h6, h.symm⟩
  tauto

/-- A successful move out of a non-draw position that lands in a draw
refunds each player exactly their own wager. -/
lemma makeMove_draw (t : TState) (c n g pos : Nat) (p : TState × List Mv)
    (hd : (t.games g).isDraw = false)
    (h : makeMove t c n g pos = .ok p)
    (hd2 : (p.1.games g).isDraw = true) :
    p.2 = [.pay (t.games g).player1 (t.games g).wagerAmount,
           .pay (t.games g).player2 (t.games g).wagerAmount] := by
  simp only [makeMove] at h
  split_ifs at h
  all_goals injection h with h
  all_goals subst h
  all_goals simp_all [setTGame]

end TTT

namespace Store

/-- One ERC-20 movement made by the token store: `pullUsdc` is
`usdc.safeTransferFrom(buyer, this, cost)`, `payDuel` is
`duelToken.safeTransfer(buyer, amount)`. -/
inductive SMv where
  | pullUsdc (who amount : Nat)
  | payDuel (who amount : Nat)
deriving DecidableEq

/-- Constant `DUEL_DECIMALS` (18). -/
def DUEL_DECIMALS : Nat := 18

/-- The mutable storage of `TokenStore`; `duelInventory` stands for
`duelToken.balanceOf(address(this))`. -/
structure SState where
  owner : Nat
  pricePerToken : Nat
  isOpen : Bool
  duelInventory : Nat

/-- Model of `TokenStore.buyTokens(duelAmount)` called by `caller`. -/
def buyTokens (s : SState) (caller duelAmount : Nat) :
    Except Err (SState × List SMv) :=
  if s.isOpen = false then .error .StoreClosed
  else if duelAmount = 0 then .error .InvalidAmount
  else if duelAmount * s.pricePerToken < UMAX then
    let usdcCost := duelAmount * s.pricePerToken / 10 ^ DUEL_DECIMALS
    if usdcCost = 0 then .error .InvalidAmount
    else if s.duelInventory < duelAmount then .error .InsufficientInventory
    else
      .ok ({ s with duelInventory := s.duelInventory - duelAmount },
           [.pullUsdc caller usdcCost, .payDuel caller duelAmount])
  else .error .Overflow

/-- Model of `TokenStore.calculateCost(duelAmount)` (view). -/
def calculateCost (s : SState) (duelAmount : Nat) : Nat :=
  duelAmount * s.pricePerToken / 10 ^ DUEL_DECIMALS

end Store

namespace GM

/-- A backend key model under which every signature recovers to address 5. -/
def rc0 : GDigest → Nat → Nat := fun _ _ => 5

/-- Fresh `GameManager` deployment: owner 9, backend signer 5. -/
def s0 : GMState := GMState.init 9 5

/-- After `createGame(opponent := 2, wagerAmount := 100, TicTacToe)` by
address 1 at time 1000 (Scenario A: pulled stake 105). -/
def s1 : GMState := gmStep s0 (.create 1 1000 2 100 .TicTacToe)

/-- After address 2 joins game 0. -/
def sActive : GMState := gmStep s1 (.join 2 0)

/-- After `completeGame(0, winner := 1)` with a valid signature. -/
def sDone : GMState := gmStep sActive (.complete 0 1 rc0 0)

example : (s1.games 0).player1Wager = 105 := rfl
example : movesOf (createGame s0 1 1000 2 100 .TicTacToe) = [.pull 1 105] := rfl
example : movesOf (joinGame s1 2 0) = [.pull 2 100] := rfl
example : movesOf (completeGame sActive 0 1 rc0 0) = [.pay 1 205] := rfl
example : (sDone.games 0).status = .Completed := rfl
example : sDone.usedSignatures ⟨0, 1⟩ = true := rfl
example : completeGame sDone 0 1 rc0 0 = .error .InvalidGameStatus := rfl
example : cancelGame s1 1 87399 0 = .error .TimeoutNotReached := rfl
example : isOk (cancelGame s1 1 87400 0) = true := rfl

/-- Updating a key and reading it back. -/
lemma setGame_self (f : Nat → Game) (i : Nat) (g : Game) : setGame f i g i = g := by
  simp [setGame]

/-- Updating one key leaves the others unchanged. -/
lemma setGame_ne (f : Nat → Game) (i j : Nat) (g : Game) (h : j ≠ i) :
    setGame f i g j = f j := by
  simp [setGame, h]

/-- Inversion of a successful `joinGame`: the checks that were passed and
the exact state update and token pull performed. -/
lemma joinGame_ok (s : GMState) (c g : Nat) (p : GMState × List Mv)
    (h : joinGame s c g = .ok p) :
    (s.games g).player1 ≠ 0 ∧ (s.games g).status = .Created ∧
    c = (s.games g).player2 ∧
    p = ({ s with
            games := setGame s.games g { s.games g with status := .Active } },
         [.pull c (s.games g).wagerAmount]) := by
  simp only [joinGame] at h
  split_ifs at h with h1 h2 h3
  injection h with h
  exact ⟨h1, not_not.mp h2, not_not.mp h3, h.symm⟩

/-- Inversion of a successful `createGame`. -/
lemma createGame_ok (s : GMState) (c n o w : Nat) (gt : GameType)
    (p : GMState × List Mv) (h : createGame s c n o w gt = .ok p) :
    o ≠ 0 ∧ o ≠ c ∧ w ≠ 0 ∧
    p = ({ s with
            nextGameId := s.nextGameId + 1
            games := setGame s.games s.nextGameId
              { id := s.nextGameId
                player1 := c
                player2 := o
                wagerAmount := w
                player1Wager := w + w * s.edgePercent gt / BASIS_POINTS
                gameType := gt
                status := .Created
                createdAt := n
                winner := 0 } },
         [.pull c (w + w * s.edgePercent gt / BASIS_POINTS)]) := by
  simp only [createGame] at h
  split_ifs at h with h1 h2 h3 h4 h5
  injection h with h
  push_neg at h1
  exact ⟨h1.1, h1.2, h2, h.symm⟩

/-- Inversion of a successful `completeGame`. -/
lemma completeGame_ok (s : GMState) (g w : Nat) (rc : GDigest → Nat → Nat)
    (sig : Nat) (p : GMState × List Mv) (h : completeGame s g w rc sig = .ok p) :
    (s.games g).player1 ≠ 0 ∧ (s.games g).status = .Active ∧
    (w = (s.games g).player1 ∨ w = (s.games g).player2) ∧
    s.usedSignatures ⟨g, w⟩ = false ∧
    rc ⟨g, w⟩ sig = s.backendSigner ∧
    p = ({ s with
            usedSignatures := fun d =>
              if d = ⟨g, w⟩ then true else s.usedSignatures d
            games := setGame s.games g
              { s.games g with status := .Completed, winner := w } },
         [.pay w ((s.games g).player1Wager + (s.games g).wagerAmount)]) := by
  simp only [completeGame] at h
  split_ifs at h with h1 h2 h3 h4 h5 h6
  injection h with h
  refine ⟨h1, not_not.mp h2, ?_, ?_, not_not.mp h5, h.symm⟩
  · tauto
  · exact Bool.not_eq_true _ |>.mp h4

/-- Inversion of a successful `cancelGame`. -/
lemma cancelGame_ok (s : GMState) (c n g : Nat) (p : GMState × List Mv)
    (h : cancelGame s c n g = .ok p) :
    (s.games g).player1 ≠ 0 ∧ (s.games g).status = .Created ∧
    c = (s.games g).player1 ∧
    (s.games g).createdAt + s.cancelTimeout ≤ n ∧
    p = ({ s with
            games := setGame s.games g
              { s.games g with status := .Cancelled } },
         [.pay (s.games g).player1 (s.games g).player1Wager]) := by
  simp only [cancelGame] at h
  split_ifs at h with h1 h2 h3 h4 h5
  injection h with h
  exact ⟨h1, not_not.mp h2, not_not.mp h3, Nat.le_of_not_lt h5, h.symm⟩

/-- Inversion of a successful `setEdgePercent`. -/
lemma setEdgePercent_ok (s : GMState) (c : Nat) (gt : GameType) (bp : Nat)
    (s2 : GMState) (h : setEdgePercent s c gt bp = .ok s2) :
    c = s.owner ∧ bp ≤ MAX_EDGE_PERCENT ∧
    s2 = { s with
            edgePercent := fun g => if g = gt then bp else s.edgePercent g } := by
  simp only [setEdgePercent] at h
  split_ifs at h with h1 h2
  injection h with h
  exact ⟨not_not.mp h1, Nat.le_of_not_lt h2, h.symm⟩

/-- Inversion of a successful `setCancelTimeout`. -/
lemma setCancelTimeout_ok (s : GMState) (c t : Nat) (s2 : GMState)
    (h : setCancelTimeout s c t = .ok s2) :
    c = s.owner ∧ s2 = { s with cancelTimeout := t } := by
  simp only [setCancelTimeout] at h
  split_ifs at h with h1
  injection h with h
  exact ⟨not_not.mp h1, h.symm⟩

end GM

namespace TTT

/-- An active on-chain tic-tac-toe game between players 1 and 2 with a
wager of 100, last move at time 50, player 1 on turn. -/
def tGameA : TGame :=
  { id := 0, player1 := 1, player2 := 2, wagerAmount := 100, status := .Active,
    createdAt := 10, lastMoveAt := 50, currentTurn := 1, winner := 0,
    board := List.replicate 9 0, isDraw := false }

/-- Storage of `TicTacToeGame` holding just the active game `tGameA` as game 0. -/
def tActive : TState :=
  { owner := 9, joinTimeout := 86400, nextGameId := 1,
    games := fun g => if g = 0 then tGameA else emptyTGame }

/-- An active game one move away from a draw: every cell but 8 is filled,
no line exists, and X (player 1) is on turn. -/
def tGameD : TGame :=
  { id := 0, player1 := 1, player2 := 2, wagerAmount := 100, status := .Active,
    createdAt := 10, lastMoveAt := 50, currentTurn := 1, winner := 0,
    board := [1, 2, 1, 1, 2, 2, 2, 1, 0], isDraw := false }

/-- Storage of `TicTacToeGame` holding just `tGameD` as game 0. -/
def tDraw : TState :=
  { owner := 9, joinTimeout := 86400, nextGameId := 1,
    games := fun g => if g = 0 then tGameD else emptyTGame }

example : movesOf (makeMove tDraw 1 60 0 8) = [.pay 1 100, .pay 2 100] := rfl
example : movesOf (claimTimeoutWin tActive 2 170 0) = [.pay 2 200] := rfl
example : claimTimeoutWin tActive 2 169 0 = .error .NoTimeoutOccurred := rfl

end TTT

/-- Claim C4: for a valid opponent and any positive `baseWager`,
`createGame` pulls from the caller exactly
`baseWager + baseWager * edgeBasisPoints(gameType) / 10000` (floor
division), recording that amount as the game's `player1Wager`; with
`baseWager = 0` it fails with `InvalidAmount` and moves no funds. -/
theorem createGame_stake (s : GM.GMState) (c n o w : Nat) (gt : GameType)
    (ho : o ≠ 0) (hoc : o ≠ c)
    (hid : s.nextGameId + 1 < UMAX)
    (hm : w * s.edgePercent gt < UMAX)
    (ha : w + w * s.edgePercent gt / GM.BASIS_POINTS < UMAX) :
    (w = 0 → GM.createGame s c n o w gt = .error .InvalidAmount) ∧
    (w ≠ 0 →
      GM.createGame s c n o w gt =
        .ok ({ s with
                nextGameId := s.nextGameId + 1
                games := GM.setGame s.games s.nextGameId
                  { id := s.nextGameId
                    player1 := c
                    player2 := o
                    wagerAmount := w
                    player1Wager := w + w * s.edgePercent gt / GM.BASIS_POINTS
                    gameType := gt
                    status := .Created
                    createdAt := n
                    winner := 0 } },
             [.pull c (w + w * s.edgePercent gt / GM.BASIS_POINTS)])) := by
  constructor
  · intro hw
    simp [GM.createGame, ho, hoc, hw]
  · intro hw
    simp [GM.createGame, ho, hoc, hw, hid, hm, ha]

/-- Witness for C4: on a fresh deployment, a TicTacToe game (5% edge) with
base wager 100 pulls exactly 105 from the creator, and a zero base wager is
rejected with `InvalidAmount`. -/
theorem createGame_stake_witness :
    GM.createGame GM.s0 1 1000 2 0 .TicTacToe = .error .InvalidAmount ∧
    movesOf (GM.createGame GM.s0 1 1000 2 100 .TicTacToe) = [.pull 1 105] := by
  refine ⟨(createGame_stake GM.s0 1 1000 2 0 .TicTacToe (by decide) (by decide)
    (by decide) (by decide) (by decide)).1 rfl, ?_⟩
  have h := (createGame_stake GM.s0 1 1000 2 100 .TicTacToe (by decide) (by decide)
    (by decide) (by decide) (by decide)).2 (by decide)
  rw [h]
  rfl

/-- Claim C8: on an open store, `buyTokens` rejects a zero amount and a
zero-rounding cost with `InvalidAmount`, rejects insufficient DUEL
inventory with `InsufficientInventory`, and otherwise charges exactly
`floor(duelAmount * pricePerToken / 10^18)` quote units and delivers
exactly `duelAmount` DUEL. -/
theorem buyTokens_contract (s : Store.SState) (c amt : Nat)
    (hopen : s.isOpen = true)
    (hb : amt * s.pricePerToken < UMAX) :
    (amt = 0 → Store.buyTokens s c amt = .error .InvalidAmount) ∧
    (amt * s.pricePerToken / 10 ^ Store.DUEL_DECIMALS = 0 →
      Store.buyTokens s c amt = .error .InvalidAmount) ∧
    (amt ≠ 0 → amt * s.pricePerToken / 10 ^ Store.DUEL_DECIMALS ≠ 0 →
      s.duelInventory < amt →
      Store.buyTokens s c amt = .error .InsufficientInventory) ∧
    (amt ≠ 0 → amt * s.pricePerToken / 10 ^ Store.DUEL_DECIMALS ≠ 0 →
      amt ≤ s.duelInventory →
      Store.buyTokens s c amt =
        .ok ({ s with duelInventory := s.duelInventory - amt },
             [.pullUsdc c (amt * s.pricePerToken / 10 ^ Store.DUEL_DECIMALS),
              .payDuel c amt])) := by
  refine ⟨fun hz => ?_, fun hc0 => ?_, fun hnz hc hlow => ?_, fun hnz hc hinv => ?_⟩
  · simp [Store.buyTokens, hopen, hz]
  · by_cases hz : amt = 0
    · simp [Store.buyTokens, hopen, hz]
    · simp [Store.buyTokens, hopen, hz, hb, hc0]
  · simp_all [Store.buyTokens, hopen, hb, Nat.not_le.mpr hlow]
  · simp_all [Store.buyTokens, hopen, hb, Nat.not_lt.mpr hinv]

/-- Witness for C8 (Scenario D): with price 10000 and ample inventory,
buying 1000·10^18 DUEL costs exactly 10·10^6 quote units; a dust amount of
10^13 rounds to cost 0 and is rejected with `InvalidAmount`. -/
theorem buyTokens_contract_witness :
    Store.buyTokens ⟨9, 10000, true, 10 ^ 22⟩ 3 (1000 * 10 ^ 18) =
      .ok (⟨9, 10000, true, 10 ^ 22 - 1000 * 10 ^ 18⟩,
           [.pullUsdc 3 (10 * 10 ^ 6), .payDuel 3 (1000 * 10 ^ 18)]) ∧
    Store.buyTokens ⟨9, 10000, true, 10 ^ 22⟩ 3 (10 ^ 13) =
      .error .InvalidAmount := by
  constructor
  · have h := (buyTokens_contract ⟨9, 10000, true, 10 ^ 22⟩ 3 (1000 * 10 ^ 18)
      rfl (by decide)).2.2.2 (by decide) (by decide) (by decide)
    rw [h]
    rfl
  · exact (buyTokens_contract ⟨9, 10000, true, 10 ^ 22⟩ 3 (10 ^ 13)
      rfl (by decide)).2.1 (by decide)

/-- Claim C5: an owner call to `setEdgePercent` leaves every already-created
game's record — in particular its snapshotted `player1Wager` — unchanged,
and therefore every later payout (`completeGame`) or refund (`cancelGame`)
computed for such a game moves exactly the same amounts as before the
change. -/
theorem edge_snapshot (s : GM.GMState) (c : Nat) (gt : GameType) (bp : Nat)
    (s2 : GM.GMState) (h : GM.setEdgePercent s c gt bp = .ok s2) :
    s2.games = s.games ∧
    (∀ gid, (s2.games gid).player1Wager = (s.games gid).player1Wager) ∧
    (∀ gid w rc sig,
      movesOf (GM.completeGame s2 gid w rc sig) =
        movesOf (GM.completeGame s gid w rc sig)) ∧
    (∀ c2 n gid,
      movesOf (GM.cancelGame s2 c2 n gid) = movesOf (GM.cancelGame s c2 n gid)) := by
  obtain ⟨-, -, rfl⟩ := GM.setEdgePercent_ok s c gt bp s2 h
  refine ⟨rfl, fun gid => rfl, fun gid w rc sig => ?_, fun c2 n gid => ?_⟩
  · simp only [GM.completeGame]
    split_ifs <;> rfl
  · simp only [GM.cancelGame]
    split_ifs <;> rfl

/-- Witness for C5: after the owner raises the TicTacToe edge to 50% on a
deployment holding game 0 (created with a 5% edge), the game's recorded
stake is still 105 and a completion still pays exactly 205. -/
theorem edge_snapshot_witness :
    (GM.gmStep GM.sActive (.setEdge 9 .TicTacToe 5000)).games = GM.sActive.games ∧
    movesOf (GM.completeGame (GM.gmStep GM.sActive (.setEdge 9 .TicTacToe 5000))
      0 1 GM.rc0 0) = movesOf (GM.completeGame GM.sActive 0 1 GM.rc0 0) := by
  have h : GM.setEdgePercent GM.sActive 9 .TicTacToe 5000 =
      .ok (GM.gmStep GM.sActive (.setEdge 9 .TicTacToe 5000)) := rfl
  have h2 := edge_snapshot GM.sActive 9 .TicTacToe 5000 _ h
  exact ⟨h2.1, h2.2.2.1 0 1 GM.rc0 0⟩

/-- Claim C6: under the other preconditions of each call, `cancelGame`
fails with `TimeoutNotReached` exactly when `now` is strictly below
`createdAt + cancelTimeout` and passes (succeeds) for every `now` at or
after that instant; `claimTimeoutWin` uses the same inclusive comparison
against `lastMoveAt + MOVE_TIMEOUT`, failing with `NoTimeoutOccurred`
exactly when `now < lastMoveAt + MOVE_TIMEOUT`. -/
theorem timeout_boundary (s : GM.GMState) (c now gid : Nat)
    (hp1 : (s.games gid).player1 ≠ 0)
    (hst : (s.games gid).status = .Created)
    (hc : c = (s.games gid).player1)
    (hb : (s.games gid).createdAt + s.cancelTimeout < UMAX)
    (t : TTT.TState) (c2 now2 gid2 : Nat)
    (hq1 : (t.games gid2).player1 ≠ 0)
    (hq2 : (t.games gid2).status = .Active)
    (hq3 : c2 = (t.games gid2).player1 ∨ c2 = (t.games gid2).player2)
    (hq4 : c2 ≠ (t.games gid2).currentTurn)
    (hq5 : (t.games gid2).lastMoveAt + TTT.MOVE_TIMEOUT < UMAX)
    (hq6 : (t.games gid2).wagerAmount * 2 < UMAX) :
    (GM.cancelGame s c now gid = .error .TimeoutNotReached ↔
      now < (s.games gid).createdAt + s.cancelTimeout) ∧
    (isOk (GM.cancelGame s c now gid) = true ↔
      (s.games gid).createdAt + s.cancelTimeout ≤ now) ∧
    (TTT.claimTimeoutWin t c2 now2 gid2 = .error .NoTimeoutOccurred ↔
      now2 < (t.games gid2).lastMoveAt + TTT.MOVE_TIMEOUT) ∧
    (isOk (TTT.claimTimeoutWin t c2 now2 gid2) = true ↔
      (t.games gid2).lastMoveAt + TTT.MOVE_TIMEOUT ≤ now2) := by
  have hq3n : ¬(c2 ≠ (t.games gid2).player1 ∧ c2 ≠ (t.games gid2).player2) := by
    tauto
  constructor
  · by_cases hn : now < (s.games gid).createdAt + s.cancelTimeout <;>
      simp [GM.cancelGame, hp1, hst, hc, hb, hn, isOk]
  constructor
  · rcases Nat.lt_or_ge now ((s.games gid).createdAt + s.cancelTimeout) with hn | hn
    · simp [GM.cancelGame, hp1, hst, hc, hb, hn, isOk, Nat.not_le.mpr hn]
    · simp [GM.cancelGame, hp1, hst, hc, hb, Nat.not_lt.mpr hn, isOk, hn]
  constructor
  · by_cases hn : now2 < (t.games gid2).lastMoveAt + TTT.MOVE_TIMEOUT <;>
      simp [TTT.claimTimeoutWin, hq1, hq2, hq3n, hq4, hq5, hq6, hn, isOk]
  · rcases Nat.lt_or_ge now2 ((t.games gid2).lastMoveAt + TTT.MOVE_TIMEOUT) with hn | hn
    · simp [TTT.claimTimeoutWin, hq1, hq2, hq3n, hq4, hq5, hq6, hn, isOk,
        Nat.not_le.mpr hn]
    · simp [TTT.claimTimeoutWin, hq1, hq2, hq3n, hq4, hq5, hq6, isOk,
        Nat.not_lt.mpr hn, hn]

/-- Witness for C6: on game 0 of `s1` (createdAt 1000, timeout 86400) and
the active tic-tac-toe game of `tActive` (lastMoveAt 50, move timeout 120),
the boundary comparisons instantiate as stated. -/
theorem timeout_boundary_witness :
    (GM.cancelGame GM.s1 1 87399 0 = .error .TimeoutNotReached ↔
      87399 < (GM.s1.games 0).createdAt + GM.s1.cancelTimeout) ∧
    (isOk (GM.cancelGame GM.s1 1 87400 0) = true ↔
      (GM.s1.games 0).createdAt + GM.s1.cancelTimeout ≤ 87400) ∧
    (TTT.claimTimeoutWin TTT.tActive 2 169 0 = .error .NoTimeoutOccurred ↔
      169 < (TTT.tActive.games 0).lastMoveAt + TTT.MOVE_TIMEOUT) ∧
    (isOk (TTT.claimTimeoutWin TTT.tActive 2 170 0) = true ↔
      (TTT.tActive.games 0).lastMoveAt + TTT.MOVE_TIMEOUT ≤ 170) := by
  have h1 := timeout_boundary GM.s1 1 87399 0 (by decide) (by decide) (by decide)
    (by decide) TTT.tActive 2 169 0 (by decide) (by decide) (by decide)
    (by decide) (by decide) (by decide)
  have h2 := timeout_boundary GM.s1 1 87400 0 (by decide) (by decide) (by decide)
    (by decide) TTT.tActive 2 170 0 (by decide) (by decide) (by decide)
    (by decide) (by decide) (by decide)
  exact ⟨h1.1, h2.2.1, h1.2.2.1, h2.2.2.2⟩

/-- Claim C7: a successful `claimTimeoutWin` implies the game was Active,
the caller was one of its two players and not the player on turn, and the
move timeout had elapsed; it marks the game Completed with the caller as
winner and pays the caller the full pot of `2 * wagerAmount`. -/
theorem claimTimeoutWin_forfeiture (t : TTT.TState) (c n g : Nat)
    (p : TTT.TState × List Mv) (h : TTT.claimTimeoutWin t c n g = .ok p) :
    (t.games g).status = .Active ∧
    (c = (t.games g).player1 ∨ c = (t.games g).player2) ∧
    c ≠ (t.games g).currentTurn ∧
    (t.games g).lastMoveAt + TTT.MOVE_TIMEOUT ≤ n ∧
    (p.1.games g).status = .Completed ∧
    (p.1.games g).winner = c ∧
    p.2 = [.pay c ((t.games g).wagerAmount * 2)] := by
  obtain ⟨h1, h2, h3, h4, h5, rfl⟩ := TTT.claimTimeoutWin_ok t c n g p h
  refine ⟨h2, h3, h4, h5, ?_, ?_, rfl⟩ <;> simp [TTT.setTGame]

/-- Witness for C7: player 2 claims the timeout win of `tActive`'s game 0
at time 170 and receives the 200-token pot, with the game Completed and
player 2 recorded as winner. -/
theorem claimTimeoutWin_forfeiture_witness :
    movesOf (TTT.claimTimeoutWin TTT.tActive 2 170 0) = [.pay 2 200] ∧
    ((stateOf TTT.tActive (TTT.claimTimeoutWin TTT.tActive 2 170 0)).games 0).status
      = .Completed ∧
    ((stateOf TTT.tActive (TTT.claimTimeoutWin TTT.tActive 2 170 0)).games 0).winner
      = 2 := by
  have h : TTT.claimTimeoutWin TTT.tActive 2 170 0 =
      .ok (stateOf TTT.tActive (TTT.claimTimeoutWin TTT.tActive 2 170 0),
           movesOf (TTT.claimTimeoutWin TTT.tActive 2 170 0)) := rfl
  have h2 := claimTimeoutWin_forfeiture TTT.tActive 2 170 0 _ h
  exact ⟨h2.2.2.2.2.2.2, h2.2.2.2.2.1, h2.2.2.2.2.2.1⟩

/-- Claim C10: the cancellation timeout is read at call time, not
snapshotted: after an owner call `setCancelTimeout(T)`, an already-created
game's record is untouched but its cancellability at any instant is decided
against `createdAt + T`, whatever the timeout was at creation. -/
theorem cancelTimeout_not_snapshotted (s : GM.GMState) (T now gid : Nat)
    (s2 : GM.GMState) (h : GM.setCancelTimeout s s.owner T = .ok s2)
    (hst : (s.games gid).status = .Created)
    (hp : (s.games gid).player1 ≠ 0)
    (hb : (s.games gid).createdAt + T < UMAX) :
    s2.games gid = s.games gid ∧
    s2.cancelTimeout = T ∧
    (now < (s.games gid).createdAt + T →
      GM.cancelGame s2 (s.games gid).player1 now gid = .error .TimeoutNotReached) ∧
    ((s.games gid).createdAt + T ≤ now →
      isOk (GM.cancelGame s2 (s.games gid).player1 now gid) = true) := by
  obtain ⟨-, rfl⟩ := GM.setCancelTimeout_ok s s.owner T s2 h
  refine ⟨rfl, rfl, fun hn => ?_, fun hn => ?_⟩
  · simp [GM.cancelGame, hp, hst, hb, hn]
  · simp [GM.cancelGame, hp, hst, hb, Nat.not_lt.mpr hn, isOk]

/-- Witness for C10: game 0 of `s1` was created at time 1000 under a
24-hour timeout; after the owner shortens the timeout to 10 seconds, the
game is cancellable already at time 1010. -/
theorem cancelTimeout_not_snapshotted_witness :
    (GM.gmStep GM.s1 (.setTimeout 9 10)).games 0 = GM.s1.games 0 ∧
    (GM.gmStep GM.s1 (.setTimeout 9 10)).cancelTimeout = 10 ∧
    isOk (GM.cancelGame (GM.gmStep GM.s1 (.setTimeout 9 10)) 1 1010 0) = true := by
  have h : GM.setCancelTimeout GM.s1 GM.s1.owner 10 =
      .ok (GM.gmStep GM.s1 (.setTimeout 9 10)) := rfl
  have h2 := cancelTimeout_not_snapshotted GM.s1 10 1010 0 _ h (by decide)
    (by decide) (by decide)
  exact ⟨h2.1, h2.2.1, h2.2.2.2 (by decide)⟩

/-- Claim C1 (conservation of funds, per terminal transition): `createGame`
pulls exactly the recorded `player1Wager`; `joinGame` pulls exactly the
stored `wagerAmount`; `completeGame` pays the winner exactly
`player1Wager + wagerAmount` and nothing else; `cancelGame` refunds the
initiator exactly `player1Wager`; and an on-chain move that ends in a draw
refunds each player exactly their own `wagerAmount`. -/
theorem conservation :
    (∀ (s : GM.GMState) (c n o w : Nat) (gt : GameType)
       (p : GM.GMState × List Mv),
       GM.createGame s c n o w gt = .ok p →
       p.2 = [.pull c ((p.1.games s.nextGameId).player1Wager)]) ∧
    (∀ (s : GM.GMState) (c g : Nat) (p : GM.GMState × List Mv),
       GM.joinGame s c g = .ok p → p.2 = [.pull c ((s.games g).wagerAmount)]) ∧
    (∀ (s : GM.GMState) (g w : Nat) (rc : GM.GDigest → Nat → Nat) (sig : Nat)
       (p : GM.GMState × List Mv),
       GM.completeGame s g w rc sig = .ok p →
       p.2 = [.pay w ((s.games g).player1Wager + (s.games g).wagerAmount)]) ∧
    (∀ (s : GM.GMState) (c n g : Nat) (p : GM.GMState × List Mv),
       GM.cancelGame s c n g = .ok p →
       p.2 = [.pay (s.games g).player1 ((s.games g).player1Wager)]) ∧
    (∀ (t : TTT.TState) (c n g pos : Nat) (p : TTT.TState × List Mv),
       (t.games g).isDraw = false → TTT.makeMove t c n g pos = .ok p →
       (p.1.games g).isDraw = true →
       p.2 = [.pay (t.games g).player1 (t.games g).wagerAmount,
              .pay (t.games g).player2 (t.games g).wagerAmount]) := by
  refine ⟨?_, ?_, ?_, ?_, ?_⟩
  · intro s c n o w gt p h
    obtain ⟨-, -, -, rfl⟩ := GM.createGame_ok s c n o w gt p h
    simp [GM.setGame]
  · intro s c g p h
    obtain ⟨-, -, -, rfl⟩ := GM.joinGame_ok s c g p h
    rfl
  · intro s g w rc sig p h
    obtain ⟨-, -, -, -, -, rfl⟩ := GM.completeGame_ok s g w rc sig p h
    rfl
  · intro s c n g p h
    obtain ⟨-, -, -, -, rfl⟩ := GM.cancelGame_ok s c n g p h
    rfl
  · exact TTT.makeMove_draw

/-- Witness for C1: concrete transitions on the Scenario A states — create
pulls 105, join pulls 100, complete pays 205, cancel refunds 105, and the
drawing final move of `tDraw` refunds 100 to each player. -/
theorem conservation_witness :
    movesOf (GM.createGame GM.s0 1 1000 2 100 .TicTacToe) = [.pull 1 105] ∧
    movesOf (GM.joinGame GM.s1 2 0) = [.pull 2 100] ∧
    movesOf (GM.completeGame GM.sActive 0 1 GM.rc0 0) = [.pay 1 205] ∧
    movesOf (GM.cancelGame GM.s1 1 90000 0) = [.pay 1 105] ∧
    movesOf (TTT.makeMove TTT.tDraw 1 60 0 8) = [.pay 1 100, .pay 2 100] := by
  have hcr : GM.createGame GM.s0 1 1000 2 100 .TicTacToe =
      .ok (stateOf GM.s0 (GM.createGame GM.s0 1 1000 2 100 .TicTacToe),
           movesOf (GM.createGame GM.s0 1 1000 2 100 .TicTacToe)) := rfl
  have hjn : GM.joinGame GM.s1 2 0 =
      .ok (stateOf GM.s1 (GM.joinGame GM.s1 2 0),
           movesOf (GM.joinGame GM.s1 2 0)) := rfl
  have hcp : GM.completeGame GM.sActive 0 1 GM.rc0 0 =
      .ok (stateOf GM.sActive (GM.completeGame GM.sActive 0 1 GM.rc0 0),
           movesOf (GM.completeGame GM.sActive 0 1 GM.rc0 0)) := rfl
  have hcn : GM.cancelGame GM.s1 1 90000 0 =
      .ok (stateOf GM.s1 (GM.cancelGame GM.s1 1 90000 0),
           movesOf (GM.cancelGame GM.s1 1 90000 0)) := rfl
  have hmv : TTT.makeMove TTT.tDraw 1 60 0 8 =
      .ok (stateOf TTT.tDraw (TTT.makeMove TTT.tDraw 1 60 0 8),
           movesOf (TTT.makeMove TTT.tDraw 1 60 0 8)) := rfl
  exact ⟨conservation.1 GM.s0 1 1000 2 100 .TicTacToe _ hcr,
         conservation.2.1 GM.s1 2 0 _ hjn,
         conservation.2.2.1 GM.sActive 0 1 GM.rc0 0 _ hcp,
         conservation.2.2.2.1 GM.s1 1 90000 0 _ hcn,
         conservation.2.2.2.2 TTT.tDraw 1 60 0 8 _ rfl hmv rfl⟩

/-- Counterexample for C2 as stated: on the live Scenario A state, the
first `completeGame` succeeds and pays 205, but the repeated call with the
identical arguments fails with `InvalidGameStatus` — not with
`SignatureAlreadyUsed` as the claim asserts — because the status check
precedes the replay check and the game is no longer Active. -/
theorem completeGame_replay_counterexample :
    isOk (GM.completeGame GM.sActive 0 1 GM.rc0 0) = true ∧
    movesOf (GM.completeGame GM.sActive 0 1 GM.rc0 0) = [.pay 1 205] ∧
    GM.sDone = stateOf GM.sActive (GM.completeGame GM.sActive 0 1 GM.rc0 0) ∧
    GM.sDone.usedSignatures ⟨0, 1⟩ = true ∧
    GM.completeGame GM.sDone 0 1 GM.rc0 0 = .error .InvalidGameStatus ∧
    Err.InvalidGameStatus ≠ Err.SignatureAlreadyUsed :=
  ⟨rfl, rfl, rfl, rfl, rfl, by decide⟩

/-- Claim C2 (amended): calling `completeGame` twice in sequence with the
same valid attestation pays out only once — the first call pays the winner
`player1Wager + wagerAmount` and marks the digest used, and the second
call fails with `InvalidGameStatus` (the game is no longer Active; the
status check precedes the replay check), moving no funds and changing no
state. -/
theorem no_double_payout (s : GM.GMState) (g w : Nat)
    (rc : GM.GDigest → Nat → Nat) (sig : Nat) (p : GM.GMState × List Mv)
    (h : GM.completeGame s g w rc sig = .ok p) :
    p.2 = [.pay w ((s.games g).player1Wager + (s.games g).wagerAmount)] ∧
    p.1.usedSignatures ⟨g, w⟩ = true ∧
    GM.completeGame p.1 g w rc sig = .error .InvalidGameStatus := by
  obtain ⟨h1, -, -, -, -, rfl⟩ := GM.completeGame_ok s g w rc sig p h
  refine ⟨rfl, by simp, ?_⟩
  simp [GM.completeGame, GM.setGame, h1]

/-- Witness for C2 (amended): the Scenario A completion pays 205 once and
the identical second call fails with `InvalidGameStatus`. -/
theorem no_double_payout_witness :
    movesOf (GM.completeGame GM.sActive 0 1 GM.rc0 0) = [.pay 1 205] ∧
    GM.completeGame GM.sDone 0 1 GM.rc0 0 = .error .InvalidGameStatus := by
  have h : GM.completeGame GM.sActive 0 1 GM.rc0 0 =
      .ok (GM.sDone, movesOf (GM.completeGame GM.sActive 0 1 GM.rc0 0)) := rfl
  have h2 := no_double_payout GM.sActive 0 1 GM.rc0 0 _ h
  exact ⟨h2.1, h2.2.2⟩

namespace GM

/-- A terminal status is not `Created`. -/
lemma terminal_ne_created {st : GameStatus} (h : st.isTerminal = true) :
    st ≠ .Created := by
  cases st <;> simp_all [GameStatus.isTerminal]

/-- A terminal status is not `Active`. -/
lemma terminal_ne_active {st : GameStatus} (h : st.isTerminal = true) :
    st ≠ .Active := by
  cases st <;> simp_all [GameStatus.isTerminal]

/-- Calling `joinGame` on a terminal game fails with `InvalidGameStatus`. -/
lemma joinGame_terminal (s : GMState) (c gid : Nat)
    (hp : (s.games gid).player1 ≠ 0)
    (ht : ((s.games gid).status).isTerminal = true) :
    joinGame s c gid = .error .InvalidGameStatus := by
  simp [joinGame, hp, terminal_ne_created ht]

/-- Calling `completeGame` on a terminal game fails with `InvalidGameStatus`. -/
lemma completeGame_terminal (s : GMState) (gid w : Nat)
    (rc : GDigest → Nat → Nat) (sig : Nat)
    (hp : (s.games gid).player1 ≠ 0)
    (ht : ((s.games gid).status).isTerminal = true) :
    completeGame s gid w rc sig = .error .InvalidGameStatus := by
  simp [completeGame, hp, terminal_ne_active ht]

/-- Calling `cancelGame` on a terminal game fails with `InvalidGameStatus`. -/
lemma cancelGame_terminal (s : GMState) (c n gid : Nat)
    (hp : (s.games gid).player1 ≠ 0)
    (ht : ((s.games gid).status).isTerminal = true) :
    cancelGame s c n gid = .error .InvalidGameStatus := by
  simp [cancelGame, hp, terminal_ne_created ht]

/-- A join/complete/cancel transaction leaves a terminal game's record
untouched. -/
lemma gmStep_gameOp_terminal (s : GMState) (op : GMOp) (gid : Nat)
    (hop : op.isGameOp = true)
    (ht : ((s.games gid).status).isTerminal = true) :
    (gmStep s op).games gid = s.games gid := by
  cases op with
  | create c n o w gt => simp [GMOp.isGameOp] at hop
  | setSigner c ns => simp [GMOp.isGameOp] at hop
  | setEdge c gt bp => simp [GMOp.isGameOp] at hop
  | setTimeout c nt => simp [GMOp.isGameOp] at hop
  | join c g =>
    cases h : joinGame s c g with
    | error e => simp [gmStep, h]
    | ok p =>
      obtain ⟨-, h2, -, rfl⟩ := joinGame_ok s c g p h
      simp only [gmStep, h]
      by_cases hg : gid = g
      · subst hg
        rw [h2] at ht
        exact absurd ht (by simp [GameStatus.isTerminal])
      · exact setGame_ne _ _ _ _ hg
  | complete g w rc sig =>
    cases h : completeGame s g w rc sig with
    | error e => simp [gmStep, h]
    | ok p =>
      obtain ⟨-, h2, -, -, -, rfl⟩ := completeGame_ok s g w rc sig p h
      simp only [gmStep, h]
      by_cases hg : gid = g
      · subst hg
        rw [h2] at ht
        exact absurd ht (by simp [GameStatus.isTerminal])
      · exact setGame_ne _ _ _ _ hg
  | cancel c n g =>
    cases h : cancelGame s c n g with
    | error e => simp [gmStep, h]
    | ok p =>
      obtain ⟨-, h2, -, -, rfl⟩ := cancelGame_ok s c n g p h
      simp only [gmStep, h]
      by_cases hg : gid = g
      · subst hg
        rw [h2] at ht
        exact absurd ht (by simp [GameStatus.isTerminal])
      · exact setGame_ne _ _ _ _ hg

/-- A sequence of join/complete/cancel transactions leaves a terminal
game's record untouched. -/
lemma gmRun_gameOps_terminal (ops : List GMOp) (s : GMState) (gid : Nat)
    (hops : ops.all GMOp.isGameOp = true)
    (ht : ((s.games gid).status).isTerminal = true) :
    (gmRun s ops).games gid = s.games gid := by
  induction ops generalizing s with
  | nil => rfl
  | cons op ops ih =>
    rw [List.all_cons, Bool.and_eq_true] at hops
    have hstep := gmStep_gameOp_terminal s op gid hops.1 ht
    have ht2 : (((gmStep s op).games gid).status).isTerminal = true := by
      rw [hstep]; exact ht
    calc (gmRun s (op :: ops)).games gid
        = (gmRun (gmStep s op) ops).games gid := rfl
      _ = (gmStep s op).games gid := ih (gmStep s op) hops.2 ht2
      _ = s.games gid := hstep

/-- The two-part state invariant of `GameManager`: ids at or above
`nextGameId` are unassigned, and a used digest records a completed game
with the digest's winner. -/
def GMInv (s : GMState) : Prop :=
  (∀ g, s.nextGameId ≤ g → s.games g = emptyGame) ∧
  (∀ d : GDigest, s.usedSignatures d = true →
     (s.games d.gameId).status = .Completed ∧
     (s.games d.gameId).winner = d.winner)

/-- The invariant holds after the constructor. -/
lemma gminv_init (o b : Nat) : GMInv (GMState.init o b) := by
  constructor
  · intro g _
    rfl
  · intro d hd
    exact absurd hd (by simp [GMState.init])

/-- Every transaction preserves the invariant. -/
lemma gminv_step (s : GMState) (op : GMOp) (h : GMInv s) : GMInv (gmStep s op) := by
  cases op with
  | setSigner c ns =>
    cases hr : setBackendSigner s c ns with
    | error e => simpa [gmStep, hr] using h
    | ok s2 =>
      obtain ⟨-, rfl⟩ : c = s.owner ∧ s2 = { s with backendSigner := ns } := by
        simp only [setBackendSigner] at hr
        split_ifs at hr with h1 h2
        injection hr with hr
        exact ⟨not_not.mp h1, hr.symm⟩
      simpa [gmStep, hr] using h
  | setEdge c gt bp =>
    cases hr : setEdgePercent s c gt bp with
    | error e => simpa [gmStep, hr] using h
    | ok s2 =>
      obtain ⟨-, -, rfl⟩ := setEdgePercent_ok s c gt bp s2 hr
      simpa [gmStep, hr] using h
  | setTimeout c nt =>
    cases hr : setCancelTimeout s c nt with
    | error e => simpa [gmStep, hr] using h
    | ok s2 =>
      obtain ⟨-, rfl⟩ := setCancelTimeout_ok s c nt s2 hr
      simpa [gmStep, hr] using h
  | create c n o w gt =>
    cases hr : createGame s c n o w gt with
    | error e => simpa [gmStep, hr] using h
    | ok p =>
      obtain ⟨-, -, -, rfl⟩ := createGame_ok s c n o w gt p hr
      simp only [gmStep, hr]
      dsimp only [GMInv]
      constructor
      · intro g hg
        have hne : g ≠ s.nextGameId := by omega
        rw [setGame_ne _ _ _ _ hne]
        exact h.1 g (by omega)
      · intro d hd
        have hc := h.2 d hd
        by_cases hdg : d.gameId = s.nextGameId
        · exfalso
          rw [hdg, h.1 s.nextGameId le_rfl] at hc
          exact absurd hc.1 (by simp [emptyGame])
        · rw [setGame_ne _ _ _ _ hdg]
          exact hc
  | join c g =>
    cases hr : joinGame s c g with
    | error e => simpa [gmStep, hr] using h
    | ok p =>
      obtain ⟨h1, h2, -, rfl⟩ := joinGame_ok s c g p hr
      simp only [gmStep, hr]
      dsimp only [GMInv]
      constructor
      · intro g2 hg2
        by_cases hgg : g2 = g
        · exfalso
          subst hgg
          rw [h.1 g2 hg2] at h1
          exact h1 rfl
        · rw [setGame_ne _ _ _ _ hgg]
          exact h.1 g2 hg2
      · intro d hd
        have hc := h.2 d hd
        by_cases hdg : d.gameId = g
        · exfalso
          rw [hdg, h2] at hc
          exact absurd hc.1 (by simp)
        · rw [setGame_ne _ _ _ _ hdg]
          exact hc
  | cancel c n g =>
    cases hr : cancelGame s c n g with
    | error e => simpa [gmStep, hr] using h
    | ok p =>
      obtain ⟨h1, h2, -, -, rfl⟩ := cancelGame_ok s c n g p hr
      simp only [gmStep, hr]
      dsimp only [GMInv]
      constructor
      · intro g2 hg2
        by_cases hgg : g2 = g
        · exfalso
          subst hgg
          rw [h.1 g2 hg2] at h1
          exact h1 rfl
        · rw [setGame_ne _ _ _ _ hgg]
          exact h.1 g2 hg2
      · intro d hd
        have hc := h.2 d hd
        by_cases hdg : d.gameId = g
        · exfalso
          rw [hdg, h2] at hc
          exact absurd hc.1 (by simp)
        · rw [setGame_ne _ _ _ _ hdg]
          exact hc
  | complete g w rc sig =>
    cases hr : completeGame s g w rc sig with
    | error e => simpa [gmStep, hr] using h
    | ok p =>
      obtain ⟨h1, h2, -, -, -, rfl⟩ := completeGame_ok s g w rc sig p hr
      simp only [gmStep, hr]
      dsimp only [GMInv]
      constructor
      · intro g2 hg2
        by_cases hgg : g2 = g
        · exfalso
          subst hgg
          rw [h.1 g2 hg2] at h1
          exact h1 rfl
        · rw [setGame_ne _ _ _ _ hgg]
          exact h.1 g2 hg2
      · intro d hd
        by_cases hdd : d = ⟨g, w⟩
        · subst hdd
          rw [setGame_self]
          exact ⟨rfl, rfl⟩
        · rw [if_neg hdd] at hd
          have hc := h.2 d hd
          by_cases hdg : d.gameId = g
          · exfalso
            rw [hdg, h2] at hc
            exact absurd hc.1 (by simp)
          · rw [setGame_ne _ _ _ _ hdg]
            exact hc

/-- The invariant is preserved along any transaction sequence. -/
lemma gminv_run (ops : List GMOp) (s : GMState) (h : GMInv s) :
    GMInv (gmRun s ops) := by
  induction ops generalizing s with
  | nil => exact h
  | cons op ops ih => exact ih (gmStep s op) (gminv_step s op h)

end GM

/-- Claim C3 (monotonic lifecycle): a game in a terminal status is never
changed by any sequence of join/complete/cancel transactions, each of those
operations invoked directly on it fails with the typed error
`InvalidGameStatus`, and every successful operation moves a game's status
only along a forward edge: join takes Created to Active, complete takes
Active to Completed, cancel takes Created to Cancelled. -/
theorem monotonic_lifecycle (s : GM.GMState) (gid : Nat) (ops : List GM.GMOp)
    (hops : ops.all GM.GMOp.isGameOp = true)
    (hp : (s.games gid).player1 ≠ 0)
    (ht : ((s.games gid).status).isTerminal = true) :
    (GM.gmRun s ops).games gid = s.games gid ∧
    (∀ c, GM.joinGame s c gid = .error .InvalidGameStatus) ∧
    (∀ w rc sig, GM.completeGame s gid w rc sig = .error .InvalidGameStatus) ∧
    (∀ c n, GM.cancelGame s c n gid = .error .InvalidGameStatus) ∧
    (∀ (s1 : GM.GMState) (c g : Nat) (p : GM.GMState × List Mv),
       GM.joinGame s1 c g = .ok p →
       (s1.games g).status = .Created ∧ (p.1.games g).status = .Active) ∧
    (∀ (s1 : GM.GMState) (g w : Nat) (rc : GM.GDigest → Nat → Nat) (sig : Nat)
       (p : GM.GMState × List Mv),
       GM.completeGame s1 g w rc sig = .ok p →
       (s1.games g).status = .Active ∧ (p.1.games g).status = .Completed) ∧
    (∀ (s1 : GM.GMState) (c n g : Nat) (p : GM.GMState × List Mv),
       GM.cancelGame s1 c n g = .ok p →
       (s1.games g).status = .Created ∧ (p.1.games g).status = .Cancelled) := by
  refine ⟨GM.gmRun_gameOps_terminal ops s gid hops ht,
    fun c => GM.joinGame_terminal s c gid hp ht,
    fun w rc sig => GM.completeGame_terminal s gid w rc sig hp ht,
    fun c n => GM.cancelGame_terminal s c n gid hp ht, ?_, ?_, ?_⟩
  · intro s1 c g p h
    obtain ⟨-, h2, -, rfl⟩ := GM.joinGame_ok s1 c g p h
    exact ⟨h2, by simp [GM.setGame]⟩
  · intro s1 g w rc sig p h
    obtain ⟨-, h2, -, -, -, rfl⟩ := GM.completeGame_ok s1 g w rc sig p h
    exact ⟨h2, by simp [GM.setGame]⟩
  · intro s1 c n g p h
    obtain ⟨-, h2, -, -, rfl⟩ := GM.cancelGame_ok s1 c n g p h
    exact ⟨h2, by simp [GM.setGame]⟩

/-- Witness for C3: on the completed Scenario A deployment, a sequence of
join, cancel and complete transactions aimed at game 0 leaves its record
unchanged, and each direct call fails with `InvalidGameStatus`. -/
theorem monotonic_lifecycle_witness :
    (GM.gmRun GM.sDone
        [.join 2 0, .cancel 1 500000 0, .complete 0 1 GM.rc0 0]).games 0 =
      GM.sDone.games 0 ∧
    GM.joinGame GM.sDone 2 0 = .error .InvalidGameStatus ∧
    GM.completeGame GM.sDone 0 2 GM.rc0 0 = .error .InvalidGameStatus ∧
    GM.cancelGame GM.sDone 1 500000 0 = .error .InvalidGameStatus := by
  have h := monotonic_lifecycle GM.sDone 0
    [.join 2 0, .cancel 1 500000 0, .complete 0 1 GM.rc0 0]
    rfl (by decide) (by decide)
  exact ⟨h.1, h.2.1 2, h.2.2.1 2 GM.rc0 0, h.2.2.2.1 1 500000⟩

/-- Claim C9: in every state reachable from a fresh deployment, a digest is
marked used only if the game it names is Completed with exactly the winner
the digest binds — only a successful `completeGame` consumes a digest, and
a failed call never adds one. -/
theorem usedSignature_consumed (o b : Nat) (ops : List GM.GMOp) (d : GM.GDigest)
    (h : (GM.gmRun (GM.GMState.init o b) ops).usedSignatures d = true) :
    ((GM.gmRun (GM.GMState.init o b) ops).games d.gameId).status = .Completed ∧
    ((GM.gmRun (GM.GMState.init o b) ops).games d.gameId).winner = d.winner :=
  (GM.gminv_run ops (GM.GMState.init o b) (GM.gminv_init o b)).2 d h

/-- Witness for C9: after create/join/complete of Scenario A from a fresh
deployment, the digest of (game 0, winner 1) is used, and indeed game 0 is
Completed with winner 1. -/
theorem usedSignature_consumed_witness :
    ((GM.gmRun (GM.GMState.init 9 5)
        [.create 1 1000 2 100 .TicTacToe, .join 2 0,
         .complete 0 1 GM.rc0 0]).games 0).status = .Completed ∧
    ((GM.gmRun (GM.GMState.init 9 5)
        [.create 1 1000 2 100 .TicTacToe, .join 2 0,
         .complete 0 1 GM.rc0 0]).games 0).winner = 1 :=
  usedSignature_consumed 9 5
    [.create 1 1000 2 100 .TicTacToe, .join 2 0, .complete 0 1 GM.rc0 0]
    ⟨0, 1⟩ rfl

end DuelBase
